import Mathlib

/-!
# LifeFlow blood-donation backend: shallow embedding

Embeds the SQL schema, row-level-security (RLS) policies and
security-definer functions of the LifeFlow supabase migrations, together
with the client-side mutations that drive them, as executable Lean
definitions.  Timestamps are modelled as natural numbers (seconds);
`now() + interval '24 hours'` becomes `now + 86400`.  UUIDs are modelled
as naturals.  SQL `NULL` of a scalar subquery that finds no row is
modelled by `Option`: a comparison against the missing value evaluates to
`false`, exactly as a SQL `=` against `NULL` is never `true`.
-/

/-- `CREATE TYPE public.blood_group AS ENUM (...)` — eight values. -/
inductive BloodGroup where
  | oPos | oNeg | aPos | aNeg | bPos | bNeg | abPos | abNeg
deriving DecidableEq, Repr

/-- `CREATE TYPE public.request_status AS ENUM ('open', 'claimed', 'fulfilled', 'expired')`
(migration 20250924025228).  No later migration alters this enum; in
particular it has no `'cancelled'` value.  `open` is a Lean keyword, hence
the constructor name `open_`. -/
inductive RequestStatus where
  | open_ | claimed | fulfilled | expired
deriving DecidableEq, Repr

/-- The textual input conversion of the `request_status` enum: the strings
Postgres accepts for a column of that type.  Any other string raises
`invalid input value for enum request_status`, modelled as `none`. -/
def parseRequestStatus (s : String) : Option RequestStatus :=
  if s = "open" then some RequestStatus.open_
  else if s = "claimed" then some RequestStatus.claimed
  else if s = "fulfilled" then some RequestStatus.fulfilled
  else if s = "expired" then some RequestStatus.expired
  else none

/-- `contact_requests.status TEXT CHECK (status IN ('pending','approved','declined','expired'))`. -/
inductive ContactStatus where
  | pending | approved | declined | expired
deriving DecidableEq, Repr

abbrev UserId := Nat
abbrev Uuid := Nat
abbrev Time := Nat

/-- A row of `public.profiles` (migrations 20250924025228, 20250925113624). -/
structure Profile where
  userId : UserId
  fullName : String
  phone : String
  district : String
  state : String
  bloodGroup : BloodGroup
  isConfirmed : Bool
deriving DecidableEq, Repr

/-- A row of `public.requests` (migration 20250924025228). -/
structure Request where
  id : Uuid
  requesterId : UserId
  bloodGroup : BloodGroup
  requesterName : String
  requesterPhone : String
  district : String
  state : String
  locationDescription : Option String
  message : Option String
  status : RequestStatus
  expiresAt : Time
  createdAt : Time
  updatedAt : Time
deriving DecidableEq, Repr

/-- A row of `public.claims` as recreated by migration 20250925113624
(`DROP TABLE IF EXISTS public.claims; CREATE TABLE public.claims (...)`).
That table has columns id, request_id, donor_id, claimed_at and — unlike
the original 20250924025228 table — no `UNIQUE(request_id, donor_id)`
constraint. -/
structure Claim where
  id : Uuid
  requestId : Uuid
  donorId : UserId
  claimedAt : Time
deriving DecidableEq, Repr

/-- A row of `public.contact_requests` (migration 20250929062623). -/
structure ContactRequest where
  id : Uuid
  requestId : Uuid
  donorId : UserId
  requesterId : UserId
  status : ContactStatus
  message : Option String
  createdAt : Time
  updatedAt : Time
  expiresAt : Time
deriving DecidableEq, Repr

/-- The database state relevant to the claims. -/
structure DB where
  profiles : List Profile
  requests : List Request
  claims : List Claim
  contactRequests : List ContactRequest
deriving DecidableEq, Repr

/-- `(SELECT ... FROM public.profiles WHERE user_id = auth.uid())`:
`profiles.user_id` is `UNIQUE`, so the scalar subquery returns the
caller's profile row, or SQL `NULL` (here `none`) if none exists. -/
def profileOf (db : DB) (uid : UserId) : Option Profile :=
  db.profiles.find? (fun p => p.userId == uid)

/-- The district/blood-group branch of the `get_safe_requests` `WHERE`
clause: `r.district = (SELECT profiles.district ...) AND r.blood_group =
(SELECT profiles.blood_group ...) AND r.requester_id <> auth.uid()`.
When the caller has no profile the subqueries are `NULL` and the
conjunction is not `true`. -/
def matchesCallerProfile (db : DB) (uid : UserId) (r : Request) : Bool :=
  match profileOf db uid with
  | some p => r.district == p.district && r.bloodGroup == p.bloodGroup
      && !(r.requesterId == uid)
  | none => false

/-- The `WHERE` clause of `public.get_safe_requests()`
(migration 20250930132633):
`r.status = 'open' AND r.expires_at > now() AND (match-branch OR
r.requester_id = auth.uid())`. -/
def requestVisible (db : DB) (uid : UserId) (now : Time) (r : Request) : Bool :=
  r.status == RequestStatus.open_ && decide (now < r.expiresAt)
    && (matchesCallerProfile db uid r || r.requesterId == uid)

/-- The `SELECT ... USING` predicate of the RLS policy
"Users can view requests in their district with matching blood group"
(migration 20250925113624): `status = 'open' AND expires_at > now() AND
((district = (SELECT ...) AND blood_group = (SELECT ...) AND
requester_id != auth.uid()) OR requester_id = auth.uid())`. -/
def requestsSelectPolicy (db : DB) (uid : UserId) (now : Time) (r : Request) : Bool :=
  r.status == RequestStatus.open_ && decide (now < r.expiresAt)
    && ((match profileOf db uid with
         | some p => r.district == p.district && r.bloodGroup == p.bloodGroup
             && !(r.requesterId == uid)
         | none => false)
        || r.requesterId == uid)

/-- `EXISTS (SELECT 1 FROM contact_requests cr WHERE cr.request_id = r.id
AND cr.donor_id = auth.uid() AND cr.status = 'approved')`. -/
def approvedContactExists (db : DB) (uid : UserId) (rid : Uuid) : Bool :=
  db.contactRequests.any
    (fun cr => cr.requestId == rid && cr.donorId == uid
      && cr.status == ContactStatus.approved)

/-- The `CASE` expression of `get_safe_requests` computing the
`requester_phone` output column: the phone when the caller owns the
request, the phone when the caller has an approved contact request for
it, `NULL` otherwise. -/
def safePhone (db : DB) (uid : UserId) (r : Request) : Option String :=
  if r.requesterId == uid then some r.requesterPhone
  else if approvedContactExists db uid r.id then some r.requesterPhone
  else none

/-- One output row of `get_safe_requests`: all `requests` columns, with
`requester_phone` nullable because of the redacting `CASE`. -/
structure SafeRequestRow where
  id : Uuid
  bloodGroup : BloodGroup
  requesterId : UserId
  requesterName : String
  requesterPhone : Option String
  district : String
  state : String
  locationDescription : Option String
  message : Option String
  status : RequestStatus
  expiresAt : Time
  createdAt : Time
  updatedAt : Time
deriving DecidableEq, Repr

/-- The `SELECT` list of `get_safe_requests` applied to one row. -/
def toSafeRow (db : DB) (uid : UserId) (r : Request) : SafeRequestRow :=
  { id := r.id
    bloodGroup := r.bloodGroup
    requesterId := r.requesterId
    requesterName := r.requesterName
    requesterPhone := safePhone db uid r
    district := r.district
    state := r.state
    locationDescription := r.locationDescription
    message := r.message
    status := r.status
    expiresAt := r.expiresAt
    createdAt := r.createdAt
    updatedAt := r.updatedAt }

/-- `public.get_safe_requests()` (migration 20250930132633), run by caller
`uid` at time `now`.  The function is `SECURITY DEFINER`, so it scans all
of `requests` and applies its own `WHERE` clause; the trailing
`ORDER BY r.created_at DESC` only permutes the result and is omitted, as
no property here depends on row order. -/
def get_safe_requests (db : DB) (uid : UserId) (now : Time) : List SafeRequestRow :=
  (db.requests.filter (requestVisible db uid now)).map (toSafeRow db uid)

/-- Effect of `UPDATE public.contact_requests SET status = s WHERE id =
crId` issued by caller `uid` (`ContactRequestList.updateRequestStatus`),
under the sole RLS update policy on that table, "Donors can update
contact request status": `FOR UPDATE USING (auth.uid() = donor_id)`.
Rows failing the `USING` predicate are invisible to the statement and
stay unchanged; a row that is updated also gets `updated_at = now()`
from the `update_contact_requests_updated_at` trigger. -/
def updateContactStatus (db : DB) (uid : UserId) (crId : Uuid)
    (s : ContactStatus) (now : Time) : DB :=
  { db with contactRequests := db.contactRequests.map (fun cr =>
      if cr.id == crId && cr.donorId == uid
      then { cr with status := s, updatedAt := now } else cr) }

/-- `INSERT INTO contact_requests (request_id, donor_id, requester_id,
message)` issued by caller `uid` (both `ContactRequestDialog.onSubmit`
and `DonorContactRequestDialog.onSubmit` perform exactly this insert).
The only RLS insert policy on `contact_requests` is "Users can create
contact requests as requesters": `WITH CHECK (auth.uid() =
requester_id)`; a row failing it is rejected (`none`).  Column defaults
fill `status = 'pending'` and `expires_at = now() + '72:00:00'`. -/
def insertContactRequest (db : DB) (uid : UserId) (id requestId : Uuid)
    (donorId requesterId : UserId) (message : Option String) (now : Time) :
    Option DB :=
  if uid == requesterId then
    some { db with contactRequests := db.contactRequests ++
      [{ id := id, requestId := requestId, donorId := donorId
         requesterId := requesterId, status := ContactStatus.pending
         message := message, createdAt := now, updatedAt := now
         expiresAt := now + 259200 }] }
  else none

/-- `INSERT INTO claims (request_id, donor_id)` issued by caller `uid`
(`Dashboard.handleClaimRequest`), against the final `claims` schema
(migration 20250925113624 plus the `claims_request_fk` foreign key).
Enforced at the storage layer: the RLS insert policy `WITH CHECK
(auth.uid() = donor_id)`, the primary key on `id`, and the foreign key
to `requests(id)`.  The recreated table carries no
`UNIQUE(request_id, donor_id)` constraint, so no duplicate check on that
pair appears here. -/
def insertClaim (db : DB) (uid : UserId) (c : Claim) : Option DB :=
  if uid == c.donorId
      && db.claims.all (fun c0 => !(c0.id == c.id))
      && db.requests.any (fun r => r.id == c.requestId)
  then some { db with claims := db.claims ++ [c] }
  else none

/-- `Dashboard.handleCancelRequest`: the client issues
`UPDATE requests SET status = 'cancelled' WHERE id = reqId`.  The string
literal must first be converted to the `request_status` enum; if that
conversion fails the whole statement errors (`none`) and no row changes.
Otherwise the update runs under the RLS policy "Users can update their
own requests" (`USING (auth.uid() = requester_id)`), with the
`update_requests_updated_at` trigger refreshing `updated_at`. -/
def handleCancelRequest (db : DB) (uid : UserId) (reqId : Uuid) (now : Time) :
    Option DB :=
  match parseRequestStatus "cancelled" with
  | none => none
  | some s =>
      some { db with requests := db.requests.map (fun r =>
        if r.id == reqId && r.requesterId == uid
        then { r with status := s, updatedAt := now } else r) }

/-- `RequestBloodDialog.onSubmit` inserts into `requests` supplying
requester_id, blood_group, requester_name, requester_phone, district,
state, location_description and message — neither `status` nor
`expires_at` — so the column defaults apply: `status DEFAULT 'open'`,
`expires_at DEFAULT (now() + interval '24 hours')`, and `created_at`,
`updated_at DEFAULT now()`. -/
def mkDefaultRequest (id : Uuid) (requesterId : UserId) (bg : BloodGroup)
    (name phone district state : String) (loc msg : Option String)
    (now : Time) : Request :=
  { id := id, requesterId := requesterId, bloodGroup := bg
    requesterName := name, requesterPhone := phone
    district := district, state := state
    locationDescription := loc, message := msg
    status := RequestStatus.open_
    expiresAt := now + 86400
    createdAt := now, updatedAt := now }

/-- The insert of `RequestBloodDialog.onSubmit` under the RLS policy
"Users can insert their own requests": `WITH CHECK (auth.uid() =
requester_id)`. -/
def insertRequest (db : DB) (uid : UserId) (id : Uuid) (requesterId : UserId)
    (bg : BloodGroup) (name phone district state : String)
    (loc msg : Option String) (now : Time) : Option DB :=
  if uid == requesterId then
    some { db with requests := db.requests ++
      [mkDefaultRequest id requesterId bg name phone district state loc msg now] }
  else none

/-- `public.expire_old_requests()` (migration 20250924025228):
`UPDATE public.requests SET status = 'expired' WHERE status = 'open' AND
expires_at <= now()`.  Each updated row also gets `updated_at = now()`
from the `update_requests_updated_at` trigger. -/
def expire_old_requests (now : Time) (rs : List Request) : List Request :=
  rs.map (fun r =>
    if r.status == RequestStatus.open_ && decide (r.expiresAt ≤ now)
    then { r with status := RequestStatus.expired, updatedAt := now } else r)

/-! ## Concrete sample data (used by witness theorems) -/

/-- User 1: requester in district "X" with blood group O+. -/
def pAlice : Profile :=
  { userId := 1, fullName := "Alice", phone := "111", district := "X"
    state := "S", bloodGroup := BloodGroup.oPos, isConfirmed := true }

/-- User 2: matching donor, same district and blood group as user 1. -/
def pBob : Profile :=
  { userId := 2, fullName := "Bob", phone := "222", district := "X"
    state := "S", bloodGroup := BloodGroup.oPos, isConfirmed := true }

/-- User 3: lives in a different district "Y". -/
def pCara : Profile :=
  { userId := 3, fullName := "Cara", phone := "333", district := "Y"
    state := "S", bloodGroup := BloodGroup.oPos, isConfirmed := true }

/-- An open, unexpired request posted by user 1. -/
def reqAlice : Request :=
  { id := 10, requesterId := 1, bloodGroup := BloodGroup.oPos
    requesterName := "Alice", requesterPhone := "111", district := "X"
    state := "S", locationDescription := none, message := none
    status := RequestStatus.open_, expiresAt := 1000, createdAt := 0
    updatedAt := 0 }

/-- An approved contact request: donor 2 may see the phone of request 10. -/
def crBob : ContactRequest :=
  { id := 20, requestId := 10, donorId := 2, requesterId := 1
    status := ContactStatus.approved, message := none, createdAt := 0
    updatedAt := 0, expiresAt := 259200 }

/-- Sample database with the three profiles, one request, one approved
contact request. -/
def dbSample : DB :=
  { profiles := [pAlice, pBob, pCara], requests := [reqAlice], claims := []
    contactRequests := [crBob] }

/-- Expected database after the witness insert for C9. -/
def dbAfterInsert : DB :=
  { dbSample with requests := dbSample.requests ++
      [mkDefaultRequest 11 1 BloodGroup.oPos "Alice" "111" "X" "S" none
        none 50] }

/-- Sample database for the claims table: request 10 already claimed
once by donor 2. -/
def dbClaims : DB :=
  { profiles := [pAlice, pBob], requests := [reqAlice]
    claims := [{ id := 30, requestId := 10, donorId := 2, claimedAt := 1 }]
    contactRequests := [] }

/-- A second claim by the same donor 2 for the same request 10 (fresh
primary key). -/
def dupClaim : Claim :=
  { id := 31, requestId := 10, donorId := 2, claimedAt := 2 }

/-- A request whose requester (user 7) has no profile row; used to
exercise the no-profile read path at a concrete returned row. -/
def req7 : Request :=
  { id := 40, requesterId := 7, bloodGroup := BloodGroup.oPos
    requesterName := "Eve", requesterPhone := "777", district := "Z"
    state := "S", locationDescription := none, message := none
    status := RequestStatus.open_, expiresAt := 1000, createdAt := 0
    updatedAt := 0 }

/-- Database where caller 7 has no profile row. -/
def dbNoProf : DB :=
  { profiles := [pAlice], requests := [reqAlice, req7], claims := []
    contactRequests := [] }

/-! ## Helper lemmas -/

/-- Membership in the result of `get_safe_requests`, characterised by the
underlying `requests` row. -/
theorem mem_get_safe_requests {db : DB} {uid : UserId} {now : Time}
    {row : SafeRequestRow} :
    row ∈ get_safe_requests db uid now ↔
      ∃ r, (r ∈ db.requests ∧ requestVisible db uid now r = true) ∧
        toSafeRow db uid r = row := by
  simp [get_safe_requests]

/-- A map whose function fixes every element of the list is the identity. -/
theorem list_map_id_of {α : Type} (l : List α) (f : α → α)
    (h : ∀ a ∈ l, f a = a) : l.map f = l := by
  induction l with
  | nil => rfl
  | cons x xs ih =>
      simp only [List.map_cons, h x (by simp)]
      rw [ih (fun a ha => h a (by simp [ha]))]

/-- Unfolding of the `get_safe_requests` `WHERE` clause into propositions,
for a caller whose profile row is `p`. -/
theorem requestVisible_iff_of_profile {db : DB} {u : UserId} {now : Time}
    {p : Profile} (hp : profileOf db u = some p) (r : Request) :
    requestVisible db u now r = true ↔
      (r.status = RequestStatus.open_ ∧ now < r.expiresAt ∧
        ((r.district = p.district ∧ r.bloodGroup = p.bloodGroup ∧
            r.requesterId ≠ u) ∨ r.requesterId = u)) := by
  simp [requestVisible, matchesCallerProfile, hp, and_assoc]

/-! ## Claim theorems -/

/-- C1: for every caller `u` and every row returned by
`get_safe_requests`, the `requester_phone` field is non-null if and only
if `u` owns the request or some contact request for it with
`donor_id = u` has status `'approved'`.  In particular, once an approval
transition has put such a row into `contact_requests`, the next read by
that donor sees the phone, and a non-owner caller without an approved
contact request of their own still reads null. -/
theorem get_safe_requests_phone_iff (db : DB) (u : UserId) (now : Time)
    (row : SafeRequestRow) (h : row ∈ get_safe_requests db u now) :
    row.requesterPhone.isSome = true ↔
      (row.requesterId = u ∨
        ∃ cr ∈ db.contactRequests, cr.requestId = row.id ∧ cr.donorId = u ∧
          cr.status = ContactStatus.approved) := by
  rcases mem_get_safe_requests.mp h with ⟨r, ⟨-, -⟩, rfl⟩
  show (safePhone db u r).isSome = true ↔ _
  unfold safePhone
  by_cases hown : r.requesterId = u
  · simp [hown, toSafeRow]
  · have hbeq : (r.requesterId == u) = false := by simp [hown]
    rw [hbeq]
    simp only [Bool.false_eq_true, if_false]
    by_cases hap : approvedContactExists db u r.id = true
    · rw [hap]
      simp only [if_true, Option.isSome_some, true_iff]
      right
      rcases List.any_eq_true.mp hap with ⟨cr, hcr, hprop⟩
      refine ⟨cr, hcr, ?_⟩
      simpa [toSafeRow, and_assoc] using hprop
    · rw [Bool.eq_false_iff.mpr hap]
      simp only [Bool.false_eq_true, if_false, Option.isSome_none,
        false_iff, not_or]
      refine ⟨by simpa [toSafeRow] using hown, ?_⟩
      rintro ⟨cr, hcr, h1, h2, h3⟩
      exact hap (List.any_eq_true.mpr ⟨cr, hcr, by
        simp [toSafeRow] at h1
        simp [h1, h2, h3]⟩)

/-- Witness for C1: in the sample database, donor 2 (holder of the
approved contact request) reads request 10 with a non-null phone. -/
theorem get_safe_requests_phone_iff_witness :
    (toSafeRow dbSample 2 reqAlice).requesterPhone.isSome = true ↔
      ((toSafeRow dbSample 2 reqAlice).requesterId = 2 ∨
        ∃ cr ∈ dbSample.contactRequests,
          cr.requestId = (toSafeRow dbSample 2 reqAlice).id ∧ cr.donorId = 2 ∧
          cr.status = ContactStatus.approved) :=
  get_safe_requests_phone_iff dbSample 2 5 (toSafeRow dbSample 2 reqAlice)
    (by decide)

/-- C2: for a caller `u` whose profile row is `p`, a request posted by
another user appears in the `get_safe_requests` result exactly when it is
open, unexpired, and matches `p`'s district and blood group; the caller's
own (open, unexpired) requests appear regardless of that match; and the
`requests` RLS select policy of migration 20250925113624 is the same
predicate as the `get_safe_requests` `WHERE` clause.  `id` is the
primary key of `requests`, hence the `Nodup` hypothesis. -/
theorem get_safe_requests_feed_visibility (db : DB) (u : UserId) (now : Time)
    (p : Profile) (r : Request)
    (hp : profileOf db u = some p)
    (hnodup : (db.requests.map Request.id).Nodup)
    (hr : r ∈ db.requests) :
    (r.requesterId ≠ u →
      ((∃ row ∈ get_safe_requests db u now, row.id = r.id) ↔
        (r.status = RequestStatus.open_ ∧ now < r.expiresAt ∧
          r.district = p.district ∧ r.bloodGroup = p.bloodGroup))) ∧
    (r.requesterId = u → r.status = RequestStatus.open_ → now < r.expiresAt →
      ∃ row ∈ get_safe_requests db u now, row.id = r.id) ∧
    (∀ r' : Request,
      requestsSelectPolicy db u now r' = requestVisible db u now r') := by
  refine ⟨?_, ?_, ?_⟩
  · intro hne
    constructor
    · rintro ⟨row, hrow, hid⟩
      rcases mem_get_safe_requests.mp hrow with ⟨a, ⟨ha, hvis⟩, rfl⟩
      have hid' : Request.id a = Request.id r := hid
      have heq : a = r := List.inj_on_of_nodup_map hnodup ha hr hid'
      subst heq
      rw [requestVisible_iff_of_profile hp] at hvis
      rcases hvis with ⟨h1, h2, h3⟩
      rcases h3 with ⟨hd, hb, -⟩ | habs
      · exact ⟨h1, h2, hd, hb⟩
      · exact absurd habs hne
    · rintro ⟨h1, h2, h3, h4⟩
      refine ⟨toSafeRow db u r, mem_get_safe_requests.mpr ⟨r, ⟨hr, ?_⟩, rfl⟩, rfl⟩
      rw [requestVisible_iff_of_profile hp]
      exact ⟨h1, h2, Or.inl ⟨h3, h4, hne⟩⟩
  · intro hown h1 h2
    refine ⟨toSafeRow db u r, mem_get_safe_requests.mpr ⟨r, ⟨hr, ?_⟩, rfl⟩, rfl⟩
    rw [requestVisible_iff_of_profile hp]
    exact ⟨h1, h2, Or.inr hown⟩
  · intro r'
    simp [requestsSelectPolicy, requestVisible, matchesCallerProfile]

/-- Witness for C2: caller 2 (profile `pBob`) and request 10 posted by
user 1 in the sample database. -/
theorem get_safe_requests_feed_visibility_witness :
    (reqAlice.requesterId ≠ 2 →
      ((∃ row ∈ get_safe_requests dbSample 2 5, row.id = reqAlice.id) ↔
        (reqAlice.status = RequestStatus.open_ ∧ 5 < reqAlice.expiresAt ∧
          reqAlice.district = pBob.district ∧
          reqAlice.bloodGroup = pBob.bloodGroup))) ∧
    (reqAlice.requesterId = 2 → reqAlice.status = RequestStatus.open_ →
      5 < reqAlice.expiresAt →
      ∃ row ∈ get_safe_requests dbSample 2 5, row.id = reqAlice.id) ∧
    (∀ r' : Request,
      requestsSelectPolicy dbSample 2 5 r' = requestVisible dbSample 2 5 r') :=
  get_safe_requests_feed_visibility dbSample 2 5 pBob reqAlice
    (by decide) (by decide) (by decide)

/-- C8: when the caller has no profile row, the scalar subqueries of the
district/blood-group branch are SQL `NULL`, the branch evaluates to
false rather than erroring, and every row `get_safe_requests` returns is
one of the caller's own requests. -/
theorem get_safe_requests_no_profile (db : DB) (u : UserId) (now : Time)
    (hnone : profileOf db u = none) :
    ∀ row ∈ get_safe_requests db u now, row.requesterId = u := by
  intro row hrow
  rcases mem_get_safe_requests.mp hrow with ⟨r, ⟨-, hvis⟩, rfl⟩
  show r.requesterId = u
  simp [requestVisible, matchesCallerProfile, hnone] at hvis
  exact hvis.2

/-- Witness for C8: caller 7 has no profile row in `dbNoProf`; the one
row `get_safe_requests` returns to them is their own request 40. -/
theorem get_safe_requests_no_profile_witness :
    (toSafeRow dbNoProf 7 req7).requesterId = 7 :=
  get_safe_requests_no_profile dbNoProf 7 5 (by decide)
    (toSafeRow dbNoProf 7 req7) (by decide)

/-- C10: the `status = 'open' AND expires_at > now()` filter of
`get_safe_requests` applies to every returned row, the caller's own
included; consequently an owner's request that is not open, or is past
expiry, is never returned to them by this function (the function behind
the client's "My Requests" view). -/
theorem get_safe_requests_filters_own_rows (db : DB) (u : UserId) (now : Time) :
    (∀ row ∈ get_safe_requests db u now,
      row.status = RequestStatus.open_ ∧ now < row.expiresAt) ∧
    ((db.requests.map Request.id).Nodup →
      ∀ r ∈ db.requests, r.requesterId = u →
        (r.status ≠ RequestStatus.open_ ∨ r.expiresAt ≤ now) →
        ¬∃ row ∈ get_safe_requests db u now, row.id = r.id) := by
  constructor
  · intro row hrow
    rcases mem_get_safe_requests.mp hrow with ⟨r, ⟨-, hvis⟩, rfl⟩
    show r.status = RequestStatus.open_ ∧ now < r.expiresAt
    simp [requestVisible] at hvis
    exact ⟨hvis.1.1, hvis.1.2⟩
  · rintro hnodup r hr - hbad ⟨row, hrow, hid⟩
    rcases mem_get_safe_requests.mp hrow with ⟨a, ⟨ha, hvis⟩, rfl⟩
    have hid' : Request.id a = Request.id r := hid
    have heq : a = r := List.inj_on_of_nodup_map hnodup ha hr hid'
    subst heq
    simp [requestVisible] at hvis
    rcases hbad with hbad | hbad
    · exact hbad hvis.1.1
    · exact absurd hvis.1.2 (not_lt.mpr hbad)

/-- Witness for C10, instantiated on the sample database for caller 1
(the owner of request 10). -/
theorem get_safe_requests_filters_own_rows_witness :
    (∀ row ∈ get_safe_requests dbSample 1 5,
      row.status = RequestStatus.open_ ∧ 5 < row.expiresAt) ∧
    ((dbSample.requests.map Request.id).Nodup →
      ∀ r ∈ dbSample.requests, r.requesterId = 1 →
        (r.status ≠ RequestStatus.open_ ∨ r.expiresAt ≤ 5) →
        ¬∃ row ∈ get_safe_requests dbSample 1 5, row.id = r.id) :=
  get_safe_requests_filters_own_rows dbSample 1 5

/-- C3: under the sole update policy on `contact_requests` (`USING
(auth.uid() = donor_id)`), a status update issued by any caller who is
not the donor of the addressed row changes nothing at all, while the
donor's update does land: the row with the new status (and refreshed
`updated_at`) is in the resulting table. -/
theorem contact_status_update_only_donor (db : DB) (uid : UserId)
    (crId : Uuid) (s : ContactStatus) (now : Time) :
    ((∀ cr ∈ db.contactRequests, cr.id = crId → cr.donorId ≠ uid) →
      updateContactStatus db uid crId s now = db) ∧
    (∀ cr ∈ db.contactRequests, cr.id = crId → cr.donorId = uid →
      { cr with status := s, updatedAt := now } ∈
        (updateContactStatus db uid crId s now).contactRequests) := by
  constructor
  · intro h
    unfold updateContactStatus
    rw [list_map_id_of]
    intro cr hcr
    by_cases hid : cr.id = crId
    · have := h cr hcr hid
      simp [hid, this]
    · simp [hid]
  · intro cr hcr h1 h2
    exact List.mem_map.mpr ⟨cr, hcr, by simp [h1, h2]⟩

/-- Witness for C3: caller 3 is not the donor of contact request 20, so
their approval attempt leaves the sample database unchanged; donor 2's
own update lands. -/
theorem contact_status_update_only_donor_witness :
    ((∀ cr ∈ dbSample.contactRequests, cr.id = 20 → cr.donorId ≠ 3) →
      updateContactStatus dbSample 3 20 ContactStatus.declined 9 = dbSample) ∧
    (∀ cr ∈ dbSample.contactRequests, cr.id = 20 → cr.donorId = 3 →
      { cr with status := ContactStatus.declined, updatedAt := 9 } ∈
        (updateContactStatus dbSample 3 20 ContactStatus.declined 9).contactRequests) :=
  contact_status_update_only_donor dbSample 3 20 ContactStatus.declined 9

/-- C7: `expire_old_requests` touches exactly the rows with
`status = 'open'` and `expires_at <= now`; such a row gets status
`'expired'` and the trigger-refreshed `updated_at`, with every other
field preserved, and every other row is returned unchanged (length and
positions preserved). -/
theorem expire_old_requests_exact (now : Time) (rs : List Request) :
    (expire_old_requests now rs).length = rs.length ∧
    ∀ (i : Nat) (h1 : i < (expire_old_requests now rs).length)
      (h2 : i < rs.length),
      (if (rs.get ⟨i, h2⟩).status = RequestStatus.open_ ∧
          (rs.get ⟨i, h2⟩).expiresAt ≤ now
       then (expire_old_requests now rs).get ⟨i, h1⟩ =
          { (rs.get ⟨i, h2⟩) with
            status := RequestStatus.expired
            updatedAt := now }
       else (expire_old_requests now rs).get ⟨i, h1⟩ = rs.get ⟨i, h2⟩) := by
  refine ⟨by simp [expire_old_requests], ?_⟩
  intro i h1 h2
  have hmap : (expire_old_requests now rs).get ⟨i, h1⟩ =
      (if (rs.get ⟨i, h2⟩).status == RequestStatus.open_ &&
          decide ((rs.get ⟨i, h2⟩).expiresAt ≤ now)
       then { (rs.get ⟨i, h2⟩) with
              status := RequestStatus.expired
              updatedAt := now }
       else rs.get ⟨i, h2⟩) := by
    simp [expire_old_requests, List.get_eq_getElem]
  by_cases hc : (rs.get ⟨i, h2⟩).status = RequestStatus.open_ ∧
      (rs.get ⟨i, h2⟩).expiresAt ≤ now
  · rw [if_pos hc, hmap, if_pos (by simpa using hc)]
  · rw [if_neg hc, hmap, if_neg (by simpa using hc)]

/-- Witness for C7: at time 2000 the open request 10 (expiry 1000) is
past due, so the sweep flips it to expired. -/
theorem expire_old_requests_exact_witness :
    (expire_old_requests 2000 [reqAlice]).length = [reqAlice].length ∧
    ∀ (i : Nat) (h1 : i < (expire_old_requests 2000 [reqAlice]).length)
      (h2 : i < [reqAlice].length),
      (if ([reqAlice].get ⟨i, h2⟩).status = RequestStatus.open_ ∧
          ([reqAlice].get ⟨i, h2⟩).expiresAt ≤ 2000
       then (expire_old_requests 2000 [reqAlice]).get ⟨i, h1⟩ =
          { ([reqAlice].get ⟨i, h2⟩) with
            status := RequestStatus.expired
            updatedAt := 2000 }
       else (expire_old_requests 2000 [reqAlice]).get ⟨i, h1⟩ =
          [reqAlice].get ⟨i, h2⟩) :=
  expire_old_requests_exact 2000 [reqAlice]

/-- C9: inserting a request with neither `status` nor `expires_at`
supplied (the only insert the client performs) stores a row with
`status = 'open'` and `expires_at = created_at + 24` hours. -/
theorem insert_request_defaults (db : DB) (uid : UserId) (id : Uuid)
    (requesterId : UserId) (bg : BloodGroup)
    (name phone district state : String) (loc msg : Option String)
    (now : Time) (db' : DB)
    (h : insertRequest db uid id requesterId bg name phone district state
      loc msg now = some db') :
    ∃ r : Request, db'.requests = db.requests ++ [r] ∧
      r.status = RequestStatus.open_ ∧ r.createdAt = now ∧
      r.expiresAt = r.createdAt + 86400 := by
  unfold insertRequest at h
  by_cases hu : (uid == requesterId) = true
  · rw [if_pos hu] at h
    refine ⟨mkDefaultRequest id requesterId bg name phone district state
      loc msg now, ?_, rfl, rfl, rfl⟩
    cases h
    rfl
  · rw [if_neg (by simpa using hu)] at h
    cases h

/-- Witness for C9: user 1 inserts a request at time 50; the stored row
is open and expires at 50 + 86400. -/
theorem insert_request_defaults_witness :
    insertRequest dbSample 1 11 1 BloodGroup.oPos "Alice" "111" "X" "S"
      none none 50 = some dbAfterInsert ∧
    ∃ r : Request, dbAfterInsert.requests = dbSample.requests ++ [r] ∧
      r.status = RequestStatus.open_ ∧ r.createdAt = 50 ∧
      r.expiresAt = r.createdAt + 86400 :=
  ⟨by decide,
    insert_request_defaults dbSample 1 11 1 BloodGroup.oPos "Alice" "111"
      "X" "S" none none 50 dbAfterInsert (by decide)⟩

/-- C4 (code bug): against the final `claims` schema — recreated by
migration 20250925113624 without the original
`UNIQUE(request_id, donor_id)` constraint — a second claim by the same
donor for the same request is accepted at the storage layer, and the
store then holds two claim rows for the pair `(10, 2)`. -/
theorem duplicate_claim_insert_succeeds :
    insertClaim dbClaims 2 dupClaim =
      some { dbClaims with claims := dbClaims.claims ++ [dupClaim] } ∧
    (({ dbClaims with claims := dbClaims.claims ++ [dupClaim] } : DB).claims.filter
        (fun c => c.requestId == 10 && c.donorId == 2)).length = 2 := by
  decide

/-- C5 (code bug): the `request_status` enum has no `'cancelled'` value,
so the string the client sends in `handleCancelRequest` does not parse,
and the owner's cancellation of their own open request 10 errors instead
of storing status `'cancelled'`. -/
theorem cancel_request_not_representable :
    parseRequestStatus "cancelled" = none ∧
    handleCancelRequest dbSample 1 10 7 = none := by
  constructor
  · rfl
  · rfl

/-- C6 (code bug): the only insert policy on `contact_requests` is
`WITH CHECK (auth.uid() = requester_id)`.  The requester-initiated flow
(caller 1 = requester_id) stores a pending row, but the symmetric
donor-initiated flow of `DonorContactRequestDialog` (caller 2 =
donor_id, requester_id = 1) is rejected by the policy. -/
theorem donor_initiated_contact_request_rejected :
    insertContactRequest dbSample 2 21 10 2 1 none 5 = none ∧
    insertContactRequest dbSample 1 21 10 2 1 none 5 =
      some { dbSample with contactRequests := dbSample.contactRequests ++
        [{ id := 21, requestId := 10, donorId := 2, requesterId := 1
           status := ContactStatus.pending, message := none, createdAt := 5
           updatedAt := 5, expiresAt := 5 + 259200 }] } := by
  decide
